import Mathlib

/-!
Verification of the PbEuSe driver script (`PbEuSe.py`).

The script exposes two pieces of logic:
  * `Eg_func(x, T)` — the empirical band-gap formula (eV) in composition `x`
    and temperature `T`;
  * `GetExpData(data_i, scale_factor)` — lookup of one of four tabulated
    experimental exchange-parameter sets from Bauer's Table 3, each value
    multiplied by the scale factor, raising a `ValueError` for any other index.

The band gap is embedded over the reals (`Real.sqrt` for `np.sqrt`); the
tabulated exchange data is exact decimal data and is embedded over `ℚ`.
Failure by `raise ValueError(msg)` is embedded as `Except.error msg`.
-/

namespace PbEuSe

/-- Band gap in eV as a function of composition `x` and temperature `T` in K.
Source: `Eg_func`, PbEuSe.py line 35. -/
noncomputable def Eg_func (x T : ℝ) : ℝ :=
  (72 - 710 * x + 2440 * x ^ 2 - 4750 * x ^ 3 - 22.5
      + Real.sqrt (506 + 0.1 * (T - 4.2) ^ 2)) / 1000

/-- The band-gap formula exactly as the specification writes it
(section 4.1): Eg(x,T) = (72 − 710x + 2440x² − 4750x³ − 22.5 +
sqrt(506 + 0.1(T−4.2)²)) / 1000.  Used to compare the code against
the spec's words. -/
noncomputable def Eg_spec_formula (x T : ℝ) : ℝ :=
  (72 - 710 * x + 2440 * x ^ 2 - 4750 * x ^ 3 - 22.5
      + Real.sqrt (506 + 0.1 * (T - 4.2) ^ 2)) / 1000

/-- The exact message of the `ValueError` raised by `GetExpData` for an
out-of-range index (PbEuSe.py line 112). -/
def expDataErrMsg : String :=
  "Only 4 experimental datasets, data_i != 0, 1, 2, 3 unsupported."

/-- The `if/elif` chain of `GetExpData` (PbEuSe.py lines 85–112) assigning the
unscaled tuple `(A, a1, a2, B, b1, b2)`, with the `a2`/`b2` entries written as
the inline differences the source uses; any other index raises. -/
def bauerTable (data_i : ℤ) : Except String (ℚ × ℚ × ℚ × ℚ × ℚ × ℚ) :=
  if data_i = 0 then
    Except.ok (0.032, 0.03, 0.03 - 0.032, 0.0066, 0.0075, 0.0075 - 0.0066)
  else if data_i = 1 then
    Except.ok (0.0244, 0.02, 0.02 - 0.0244, 0.006, 0.0025, 0.0025 - 0.006)
  else if data_i = 2 then
    Except.ok (0.024, 0.018, 0.018 - 0.024, 0.0078, 0.0009, 0.0009 - 0.0078)
  else if data_i = 3 then
    Except.ok (0.022, 0.0175, 0.0175 - 0.022, 0.0097, 0.0022, 0.0022 - 0.0097)
  else
    Except.error expDataErrMsg

/-- `GetExpData` (PbEuSe.py lines 72–115): select the data set, then return the
tuple with the scale factor applied to every component (line 115). -/
def GetExpData (data_i : ℤ) (scale_factor : ℚ := 1) :
    Except String (ℚ × ℚ × ℚ × ℚ × ℚ × ℚ) :=
  (bauerTable data_i).map (fun t =>
    (t.1 * scale_factor, t.2.1 * scale_factor, t.2.2.1 * scale_factor,
     t.2.2.2.1 * scale_factor, t.2.2.2.2.1 * scale_factor,
     t.2.2.2.2.2 * scale_factor))

end PbEuSe

namespace PbEuSe

/-- Claim C1: for any integer index outside {0,1,2,3} and any scale factor,
`GetExpData` fails with the `ValueError` whose message begins
"Only 4 experimental datasets", and never returns a parameter tuple. -/
theorem getExpData_invalid_index (i : ℤ) (s : ℚ)
    (h0 : i ≠ 0) (h1 : i ≠ 1) (h2 : i ≠ 2) (h3 : i ≠ 3) :
    GetExpData i s = Except.error expDataErrMsg ∧
      ∃ rest : String, expDataErrMsg = "Only 4 experimental datasets" ++ rest := by
  refine ⟨?_, ", data_i != 0, 1, 2, 3 unsupported.", rfl⟩
  simp [GetExpData, bauerTable, h0, h1, h2, h3, Except.map]

/-- Witness for C1 at the concrete inputs the claim names: index 4 (and the
same theorem applies at -1). -/
theorem getExpData_invalid_index_witness :
    GetExpData 4 1 = Except.error expDataErrMsg ∧
      ∃ rest : String, expDataErrMsg = "Only 4 experimental datasets" ++ rest :=
  getExpData_invalid_index 4 1 (by decide) (by decide) (by decide) (by decide)

/-- Claim C2: for every composition `x` and temperature `T`, `Eg_func x T`
returns exactly the documented formula
(72 − 710x + 2440x² − 4750x³ − 22.5 + sqrt(506 + 0.1(T−4.2)²)) / 1000. -/
theorem eg_func_matches_spec_formula (x T : ℝ) :
    Eg_func x T = Eg_spec_formula x T := rfl

/-- Claim C3: `GetExpData 0` with the default scale factor returns the
dataset-0 tuple; the exact rational values are
(0.032, 0.03, -0.002, 0.0066, 0.0075, 0.0009), and the last component is
within floating-point tolerance (here 10⁻¹²) of the spec's float literal
0.0009000000000000001. -/
theorem getExpData_zero_default :
    GetExpData 0 = Except.ok (0.032, 0.03, -0.002, 0.0066, 0.0075, 0.0009) ∧
      |(0.0009 : ℚ) - 0.0009000000000000001| < 1 / 10 ^ 12 := by
  constructor
  · norm_num [GetExpData, bauerTable, Except.map]
  · rw [show (0.0009 : ℚ) - 0.0009000000000000001 = -(1 / 10 ^ 19) by norm_num]
    rw [abs_neg, abs_of_nonneg (by positivity)]
    norm_num

/-- Claim C4: for every valid dataset index and every scale factor `s`, each
component returned by `GetExpData i s` is the corresponding base table value
multiplied by `s`. -/
theorem getExpData_scales (i : ℤ) (s : ℚ) (t : ℚ × ℚ × ℚ × ℚ × ℚ × ℚ)
    (hi : i = 0 ∨ i = 1 ∨ i = 2 ∨ i = 3)
    (ht : bauerTable i = Except.ok t) :
    GetExpData i s = Except.ok
      (t.1 * s, t.2.1 * s, t.2.2.1 * s, t.2.2.2.1 * s,
       t.2.2.2.2.1 * s, t.2.2.2.2.2 * s) := by
  simp [GetExpData, ht, Except.map]

/-- Witness for C4: the particular case from the spec, `GetExpData 1` with
scale factor 10 returns each base value of dataset 1 multiplied by 10. -/
theorem getExpData_scales_witness :
    GetExpData 1 10 = Except.ok (0.244, 0.2, -0.044, 0.06, 0.025, -0.035) := by
  have h := getExpData_scales 1 10
    (0.0244, 0.02, 0.02 - 0.0244, 0.006, 0.0025, 0.0025 - 0.006)
    (by norm_num) (by norm_num [bauerTable])
  norm_num at h
  convert h using 2 <;> norm_num

/-- Claim C5: for every valid dataset index, the unscaled tuple satisfies the
derivation invariant a2 = a1 − A and b2 = b1 − B. -/
theorem getExpData_fluctuation (i : ℤ)
    (hi : i = 0 ∨ i = 1 ∨ i = 2 ∨ i = 3)
    (A a1 a2 B b1 b2 : ℚ)
    (h : GetExpData i 1 = Except.ok (A, a1, a2, B, b1, b2)) :
    a2 = a1 - A ∧ b2 = b1 - B := by
  rcases hi with rfl | rfl | rfl | rfl <;>
    · simp [GetExpData, bauerTable, Except.map] at h
      obtain ⟨hA, ha1, ha2, hB, hb1, hb2⟩ := h
      constructor <;> norm_num [← hA, ← ha1, ← ha2, ← hB, ← hb1, ← hb2]

/-- Witness for C5 at dataset 0. -/
theorem getExpData_fluctuation_witness :
    (-0.002 : ℚ) = 0.03 - 0.032 ∧ (0.0009 : ℚ) = 0.0075 - 0.0066 :=
  getExpData_fluctuation 0 (Or.inl rfl) 0.032 0.03 (-0.002) 0.0066 0.0075
    0.0009 (by norm_num [GetExpData, bauerTable, Except.map])

/-- Claim C6: for every valid dataset index, scale factor 0 yields the all-zero
tuple. -/
theorem getExpData_scale_zero (i : ℤ)
    (hi : i = 0 ∨ i = 1 ∨ i = 2 ∨ i = 3) :
    GetExpData i 0 = Except.ok (0, 0, 0, 0, 0, 0) := by
  rcases hi with rfl | rfl | rfl | rfl <;>
    norm_num [GetExpData, bauerTable, Except.map]

/-- Witness for C6 at dataset 2. -/
theorem getExpData_scale_zero_witness :
    GetExpData 2 0 = Except.ok (0, 0, 0, 0, 0, 0) :=
  getExpData_scale_zero 2 (by norm_num)

/-- Bounds on the square root appearing in `Eg_func 0.1 10`:
the argument is 509.364 and its square root lies strictly between
22.55 and 22.65. -/
theorem sqrt_509364_bounds :
    22.55 < Real.sqrt 509.364 ∧ Real.sqrt 509.364 < 22.65 := by
  constructor
  · rw [show (22.55 : ℝ) = Real.sqrt (22.55 ^ 2) by
        rw [Real.sqrt_sq (by norm_num)]]
    exact Real.sqrt_lt_sqrt (by norm_num) (by norm_num)
  · rw [Real.sqrt_lt' (by norm_num)]
    norm_num

/-- The square-root argument in `Eg_func 0.1 10` evaluates to 509.364 and the
polynomial part to −1.85, so the value is (−1.85 + √509.364)/1000. -/
theorem eg_func_point_form :
    Eg_func 0.1 10 = (-1.85 + Real.sqrt 509.364) / 1000 := by
  unfold Eg_func
  rw [show (506 + 0.1 * ((10 : ℝ) - 4.2) ^ 2) = 509.364 by norm_num]
  ring_nf

/-- Counterexample to claim C7 as stated: `Eg_func 0.1 10` is not approximately
−0.0042 eV — it differs from −0.0042 by more than 0.02. -/
theorem eg_func_not_neg0042 :
    ¬ |Eg_func 0.1 10 - (-0.0042)| < 0.02 := by
  rw [eg_func_point_form]
  have h := sqrt_509364_bounds
  rw [abs_lt]
  push_neg
  intro hcon
  nlinarith [h.1, h.2]

/-- Claim C7 (amended): `Eg_func 0.1 10` equals the documented formula value,
which is approximately +0.0207 eV — strictly between 0.0207 and 0.0208 —
not −0.0042 eV. -/
theorem eg_func_at_x01_T10 :
    Eg_func 0.1 10 = Eg_spec_formula 0.1 10 ∧
      0.0207 < Eg_func 0.1 10 ∧ Eg_func 0.1 10 < 0.0208 := by
  refine ⟨rfl, ?_, ?_⟩ <;> rw [eg_func_point_form] <;>
    have h := sqrt_509364_bounds
  · nlinarith [h.1]
  · nlinarith [h.2]

/-- Claim C8: `Eg_func` is total over all real inputs: the square-root argument
is always at least 506 (hence nonnegative — no domain error), there is a
genuine nonnegative square root `s` of it, and the returned value is the
closed-form expression in `s`; no exception path exists. -/
theorem eg_func_total (x T : ℝ) :
    (506 : ℝ) ≤ 506 + 0.1 * (T - 4.2) ^ 2 ∧
    ∃ s : ℝ, 0 ≤ s ∧ s ^ 2 = 506 + 0.1 * (T - 4.2) ^ 2 ∧
      Eg_func x T =
        (72 - 710 * x + 2440 * x ^ 2 - 4750 * x ^ 3 - 22.5 + s) / 1000 := by
  refine ⟨by nlinarith [sq_nonneg (T - 4.2)], Real.sqrt _,
    Real.sqrt_nonneg _, Real.sq_sqrt (by nlinarith [sq_nonneg (T - 4.2)]), rfl⟩

/-- Claim C9: `Eg_func` is deterministic and pure: for x in [0,1] and any real
T, two evaluations at equal inputs give identical outputs, with no dependence
on external state (the embedding is a pure function of its arguments). -/
theorem eg_func_deterministic (x T x' T' : ℝ)
    (hx0 : 0 ≤ x) (hx1 : x ≤ 1) (hx : x = x') (hT : T = T') :
    Eg_func x T = Eg_func x' T' := by
  rw [hx, hT]

/-- Witness for C9 at x = 0.1, T = 10. -/
theorem eg_func_deterministic_witness : Eg_func 0.1 10 = Eg_func 0.1 10 :=
  eg_func_deterministic 0.1 10 0.1 10 (by norm_num) (by norm_num) rfl rfl

/-- Claim C10: the gap model is symmetric about T = 4.2 K:
`Eg_func x T = Eg_func x (8.4 - T)` for all x and T, since temperature enters
only through (T − 4.2)². -/
theorem eg_func_temp_symmetric (x T : ℝ) :
    Eg_func x T = Eg_func x (8.4 - T) := by
  unfold Eg_func
  rw [show (506 + 0.1 * ((8.4 - T) - 4.2) ^ 2 : ℝ)
      = 506 + 0.1 * (T - 4.2) ^ 2 by ring]

end PbEuSe
